import Mathlib

/-!
# Verification of the speakily video-recording component

Shallow embedding of `src/src/components/Video-recorder.tsx`:
the WAV fallback writer (`createWavBuffer`), the 16-bit sample
quantization shared by the WAV and FLAC paths, the FLAC conversion
fallback logic (`convertToFlac`), the MIME-type negotiation loop of
`setupCamera`, and the recorder state transitions (`startRecording`,
`stopRecording`, and the two `onstop` handlers).

Bytes are modelled as natural numbers below 256 in a `List ℕ`;
JavaScript numbers (Float32 channel samples, exact under the scalings
used here) are modelled as rationals; `DataView.setInt16` /
`Int16Array` assignment is truncation toward zero followed by a wrap
modulo 2^16.
-/

namespace Speakily

/-- Truncation toward zero of a rational, as the JavaScript ToInteger conversion does
when a number is stored through `DataView.setInt16` or into an
`Int16Array`. -/
def truncTowardZero (q : ℚ) : ℤ :=
  if q < 0 then -Rat.floor (-q) else Rat.floor q

/-- The 16-bit quantization of one sample, from `createWavBuffer`
(lines 118–119) and `convertToFlac` (lines 219–222):
`sample = Math.max(-1, Math.min(1, x));`
`sample = (sample < 0) ? sample * 0x8000 : sample * 0x7FFF;`. -/
def quantize16 (x : ℚ) : ℤ :=
  let s := max (-1) (min 1 x)
  if s < 0 then truncTowardZero (s * 0x8000) else truncTowardZero (s * 0x7FFF)

/-- A decoded PCM buffer (the relevant fields of a Web Audio
`AudioBuffer`): `data c f` is `getChannelData(c)[f]`. -/
structure AudioBuffer where
  numberOfChannels : ℕ
  length : ℕ
  sampleRate : ℕ
  data : ℕ → ℕ → ℚ

/-- Two little-endian bytes of a 16-bit write (`setUint16`). -/
def u16le (n : ℕ) : List ℕ :=
  [n % 256, n / 256 % 256]

/-- Four little-endian bytes of a 32-bit write (`setUint32`). -/
def u32le (n : ℕ) : List ℕ :=
  [n % 256, n / 256 % 256, n / 65536 % 256, n / 16777216 % 256]

/-- Two little-endian bytes of `setInt16`: wrap modulo 2^16, then split. -/
def i16le (z : ℤ) : List ℕ :=
  u16le (z % 65536).toNat

/-- The 44-byte WAV header written by `createWavBuffer` (lines 96–108). -/
def wavHeader (numOfChan frameCount sampleRate : ℕ) : List ℕ :=
  u32le 0x46464952 ++
  u32le (36 + frameCount * numOfChan * 2) ++
  u32le 0x45564157 ++
  u32le 0x20746d66 ++
  u32le 16 ++
  u16le 1 ++
  u16le numOfChan ++
  u32le sampleRate ++
  u32le (sampleRate * 2 * numOfChan) ++
  u16le (numOfChan * 2) ++
  u16le 16 ++
  u32le 0x61746164 ++
  u32le (frameCount * numOfChan * 2)

/-- The samples the interleave loop of lines 116–124 actually writes.
The header helpers `setUint16`/`setUint32` (lines 128–136) advance `pos`
to 44 and the loop `while (pos < audioBuffer.length)` reuses `pos` as
the frame index without resetting it, so the frames read are
44..frameCount−1 (none at all when frameCount ≤ 44), while `offset`
places their bytes from data offset 0. -/
def wavDataWritten (buf : AudioBuffer) : List ℕ :=
  ((List.range buf.length).drop 44).flatMap fun pos =>
    (List.range buf.numberOfChannels).flatMap fun i =>
      i16le (quantize16 (buf.data i pos))

/-- The full data section of the buffer: the bytes the loop wrote,
followed by the untouched zero-initialized remainder of the
`ArrayBuffer(44 + length*numOfChan*2)` allocated at line 90. -/
def wavData (buf : AudioBuffer) : List ℕ :=
  wavDataWritten buf ++
    List.replicate
      (buf.length * buf.numberOfChannels * 2 - (wavDataWritten buf).length) 0

/-- The function `createWavBuffer` (lines 87–137): header followed by sample data. -/
def createWavBuffer (buf : AudioBuffer) : List ℕ :=
  wavHeader buf.numberOfChannels buf.length buf.sampleRate ++ wavData buf

/-- Decode two little-endian bytes at `off` as an unsigned 16-bit value. -/
def readU16le (bs : List ℕ) (off : ℕ) : ℕ :=
  bs.getD off 0 + 256 * bs.getD (off + 1) 0

/-- Decode four little-endian bytes at `off` as an unsigned 32-bit value. -/
def readU32le (bs : List ℕ) (off : ℕ) : ℕ :=
  bs.getD off 0 + 256 * bs.getD (off + 1) 0 +
    65536 * bs.getD (off + 2) 0 + 16777216 * bs.getD (off + 3) 0

/-- Decode two little-endian bytes at `off` as a signed 16-bit value. -/
def readI16le (bs : List ℕ) (off : ℕ) : ℤ :=
  let n := readU16le bs off
  if n < 32768 then (n : ℤ) else (n : ℤ) - 65536

/-- A browser `Blob`: raw bytes plus a MIME type tag. -/
structure Blob where
  bytes : List ℕ
  type : String
deriving DecidableEq

/-- The WAV blob produced by `createWavFromAudio` (lines 70–84) from an
already-decoded buffer: a new Blob over the WAV bytes tagged `audio/wav`. -/
def createWavFromAudio (buf : AudioBuffer) : Blob :=
  { bytes := createWavBuffer buf, type := "audio/wav" }

/-- The browser-dependent circumstances of one `convertToFlac` run:
which globals exist, whether the library bootstrap succeeded, what the
encoder returns, and whether any step of the FLAC path throws. -/
structure FlacEnv where
  flacPresent : Bool
  flacLoaded : Bool
  decodeThrows : Bool
  hasCreateEncoder : Bool
  encoderHandle : ℕ
  encodeThrows : Bool
  encodeOutput : List (List ℕ)
deriving DecidableEq

/-- The function `convertToFlac` (lines 187–287), with `decoded` the PCM produced by
`decodeAudioData` on the input blob. Returns the output blob and whether
`setIsUsingFallbackAudio(true)` was called. Each fallback arm returns
the WAV of `createWavFromAudio`; the guard order follows the source: the
`window.Flac`/`flacLoaded` check, then decoding, then the
`create_libflac_encoder` typeof check, then the zero-handle throw, then
the remaining encode pipeline, whose failure lands in the `catch`. -/
def convertToFlac (env : FlacEnv) (decoded : AudioBuffer) : Blob × Bool :=
  if env.flacPresent = false ∨ env.flacLoaded = false then
    (createWavFromAudio decoded, true)
  else if env.decodeThrows then
    (createWavFromAudio decoded, true)
  else if env.hasCreateEncoder = false then
    (createWavFromAudio decoded, true)
  else if env.encoderHandle = 0 then
    (createWavFromAudio decoded, true)
  else if env.encodeThrows then
    (createWavFromAudio decoded, true)
  else
    ({ bytes := env.encodeOutput.flatten, type := "audio/flac" }, false)

/-- The negotiation loop of `setupCamera` (lines 304–319): starting from
the `useState` default `cur`, take the first candidate the runtime
reports as supported and stop; leave the default when none is. -/
def negotiateMime (cur : String) : List String → (String → Bool) → String
  | [], _ => cur
  | t :: ts, sup => if sup t then t else negotiateMime cur ts sup

/-- The ordered video container candidates (line 305). -/
def videoTypes : List String := ["video/webm", "video/mp4"]

/-- The ordered audio container candidates (line 313). -/
def audioTypes : List String := ["audio/webm", "audio/ogg"]

/-- The reported `state` of a `MediaRecorder`. -/
inductive RecState where
  | inactive
  | recording
  | paused
deriving DecidableEq

/-- The component state: the `useState` hooks and refs of
`CameraRecorder` that the recording transitions touch. A recorder ref is
`none` until `startRecording` has constructed one; chunk buffers are the
`videoChunksRef`/`audioChunksRef` arrays; URLs hold the blob a download
handle points at. -/
structure CState where
  isRecording : Bool
  videoRecorded : Bool
  audioRecorded : Bool
  errorMessage : String
  isUsingFallbackAudio : Bool
  isConverting : Bool
  hasStream : Bool
  mediaRecorder : Option RecState
  audioRecorder : Option RecState
  videoChunks : List (List ℕ)
  audioChunks : List (List ℕ)
  videoMimeType : String
  audioMimeType : String
  videoURL : Option Blob
  audioURL : Option Blob
deriving DecidableEq

/-- The message set by `startRecording` when `streamRef.current` is null
(line 366). -/
def streamErrorMsg : String :=
  "Camera stream is not available. Please reload and allow access."

/-- Browser-dependent circumstances of one `startRecording` run: whether
recorder construction or `start` throws (with the thrown message), and
whether the stream has an audio track. -/
structure StartEnv where
  ctorThrows : Bool
  ctorErrText : String
  hasAudioTrack : Bool
deriving DecidableEq

/-- The function `startRecording` (lines 364–466). The early return on a missing
stream changes only `errorMessage`; otherwise the chunk buffers are
cleared, and the `try` block either completes (both recorders
constructed and started, `isRecording` set, message cleared) or throws
into the `catch` (message set, state otherwise as left by the partial
run). -/
def startRecording (env : StartEnv) (s : CState) : CState :=
  if s.hasStream = false then
    { s with errorMessage := streamErrorMsg }
  else
    let s0 := { s with videoChunks := [], audioChunks := [] }
    if env.ctorThrows then
      { s0 with errorMessage := "Recording error: " ++ env.ctorErrText }
    else if env.hasAudioTrack = false then
      { s0 with mediaRecorder := some RecState.inactive,
                errorMessage := "Recording error: No audio track found in the stream" }
    else
      { s0 with mediaRecorder := some RecState.recording,
                audioRecorder := some RecState.recording,
                isRecording := true,
                errorMessage := "" }

/-- Whether a `MediaRecorder.stop()` call throws during `stopRecording`,
and the message of the thrown error. -/
structure StopEnv where
  videoStopThrows : Bool
  audioStopThrows : Bool
  errText : String
deriving DecidableEq

/-- The message set by the catch block of `stopRecording` (line 482). -/
def stopErrorMsg (env : StopEnv) : String :=
  "Error stopping recording: " ++ env.errText

/-- The function `stopRecording` (lines 469–485). Each recorder is stopped only when
its ref is non-null and its `state` is `"recording"`; a throw jumps to
the catch block, which reports and still clears `isRecording`. The
second component counts how many `stop()` calls were performed. -/
def stopRecording (env : StopEnv) (s : CState) : CState × ℕ :=
  if s.mediaRecorder = some RecState.recording then
    if env.videoStopThrows then
      ({ s with errorMessage := stopErrorMsg env, isRecording := false }, 1)
    else if s.audioRecorder = some RecState.recording then
      if env.audioStopThrows then
        ({ s with mediaRecorder := some RecState.inactive,
                  errorMessage := stopErrorMsg env, isRecording := false }, 2)
      else
        ({ s with mediaRecorder := some RecState.inactive,
                  audioRecorder := some RecState.inactive,
                  isRecording := false }, 2)
    else
      ({ s with mediaRecorder := some RecState.inactive,
                isRecording := false }, 1)
  else
    if s.audioRecorder = some RecState.recording then
      if env.audioStopThrows then
        ({ s with errorMessage := stopErrorMsg env, isRecording := false }, 1)
      else
        ({ s with audioRecorder := some RecState.inactive,
                  isRecording := false }, 1)
    else
      ({ s with isRecording := false }, 0)

/-- The warning set when MP4 conversion fails (line 403). -/
def videoConvertErrorMsg : String :=
  "Failed to convert video to MP4. Using original format."

/-- The function `convertToMp4` (lines 140–158): copies the bytes and relabels the
MIME type; no transcoding. -/
def convertToMp4 (b : Blob) : Blob :=
  { bytes := b.bytes, type := "video/mp4" }

/-- The `onstop` handler of the video recorder (lines 386–411). Nothing
happens on an empty chunk buffer. Otherwise `isConverting` is set (this
handler has no `finally`, so it stays set), the blob is assembled, and
either the negotiated type is already `video/mp4` and the original blob
is used as-is, or `convertToMp4` runs — its failure (modelled by
`convertThrows`) lands in the catch, which exposes the original blob and
still reports success. -/
def videoOnStop (convertThrows : Bool) (s : CState) : CState :=
  if 0 < s.videoChunks.length then
    let s0 := { s with isConverting := true }
    let originalVideoBlob : Blob :=
      { bytes := s.videoChunks.flatten, type := s.videoMimeType }
    if s.videoMimeType = "video/mp4" then
      { s0 with videoURL := some originalVideoBlob, videoRecorded := true }
    else if convertThrows then
      { s0 with errorMessage := videoConvertErrorMsg,
                videoURL := some originalVideoBlob,
                videoRecorded := true }
    else
      { s0 with videoURL := some (convertToMp4 originalVideoBlob),
                videoRecorded := true }
  else s

/-- The warning set when audio conversion rejects (line 444). -/
def audioConvertErrorMsg : String :=
  "Failed to convert audio. Using original format."

/-- The `onstop` handler of the audio recorder (lines 430–455). Nothing
happens on an empty chunk buffer. Otherwise the blob is assembled and
`convertToFlac` runs: if even its internal WAV fallback rejects
(`wavSynthesisThrows`, i.e. decoding fails in `createWavFromAudio`), the
catch exposes the original blob, sets the fallback flag and the warning;
the `finally` clears `isConverting` either way. -/
def audioOnStop (fenv : FlacEnv) (decoded : AudioBuffer)
    (wavSynthesisThrows : Bool) (s : CState) : CState :=
  if 0 < s.audioChunks.length then
    let originalAudioBlob : Blob :=
      { bytes := s.audioChunks.flatten, type := s.audioMimeType }
    if wavSynthesisThrows then
      { s with errorMessage := audioConvertErrorMsg,
               isUsingFallbackAudio := true,
               audioURL := some originalAudioBlob,
               audioRecorded := true,
               isConverting := false }
    else
      let r := convertToFlac fenv decoded
      { s with audioURL := some r.1,
               audioRecorded := true,
               isUsingFallbackAudio := s.isUsingFallbackAudio || r.2,
               isConverting := false }
  else s

/-- A small concrete stereo buffer used by the witnesses. -/
def testBuf : AudioBuffer where
  numberOfChannels := 2
  length := 2
  sampleRate := 44100
  data := fun c f => if c = 0 then (if f = 0 then 1/2 else -3/4) else 1/4

/-- A concrete component state used by the witnesses. -/
def testState : CState where
  isRecording := false
  videoRecorded := false
  audioRecorded := false
  errorMessage := ""
  isUsingFallbackAudio := false
  isConverting := false
  hasStream := false
  mediaRecorder := none
  audioRecorder := none
  videoChunks := []
  audioChunks := []
  videoMimeType := "video/webm"
  audioMimeType := "audio/webm"
  videoURL := none
  audioURL := none

/-- A concrete environment in which the FLAC bootstrap failed. -/
def flacFailEnv : FlacEnv where
  flacPresent := false
  flacLoaded := false
  decodeThrows := false
  hasCreateEncoder := false
  encoderHandle := 0
  encodeThrows := false
  encodeOutput := []

/-- A concrete `startRecording` environment where nothing throws. -/
def testStartEnv : StartEnv where
  ctorThrows := false
  ctorErrText := ""
  hasAudioTrack := true

/-- A concrete `stopRecording` environment where nothing throws. -/
def testStopEnv : StopEnv where
  videoStopThrows := false
  audioStopThrows := false
  errText := ""

/-- A concrete state in which both recorders exist and are already
stopped. -/
def stoppedState : CState :=
  { testState with mediaRecorder := some RecState.inactive,
                   audioRecorder := some RecState.inactive }

/-- A concrete state with a non-empty video buffer negotiated as MP4. -/
def mp4State : CState :=
  { testState with videoMimeType := "video/mp4", videoChunks := [[1, 2, 3]] }

/-- A concrete state with a non-empty video buffer negotiated as WebM. -/
def webmState : CState :=
  { testState with videoChunks := [[4, 5]] }

/-! ### Basic facts about the quantizer -/

theorem ratFloor_eq_intFloor (q : ℚ) : Rat.floor q = ⌊q⌋ :=
  (Rat.floor_def' q).trans Rat.floor_def.symm

theorem truncTowardZero_eq (q : ℚ) :
    truncTowardZero q = if q < 0 then -⌊-q⌋ else ⌊q⌋ := by
  unfold truncTowardZero
  rw [ratFloor_eq_intFloor, ratFloor_eq_intFloor]

theorem truncTowardZero_mono {x y : ℚ} (h : x ≤ y) :
    truncTowardZero x ≤ truncTowardZero y := by
  rw [truncTowardZero_eq, truncTowardZero_eq]
  by_cases hx : x < 0
  · by_cases hy : y < 0
    · rw [if_pos hx, if_pos hy]
      exact neg_le_neg (Int.floor_mono (by linarith))
    · rw [if_pos hx, if_neg hy]
      have h1 : (0 : ℤ) ≤ ⌊-x⌋ := Int.le_floor.mpr (by push_cast; linarith)
      have h2 : (0 : ℤ) ≤ ⌊y⌋ :=
        Int.le_floor.mpr (by push_cast; exact le_of_not_lt hy)
      omega
  · by_cases hy : y < 0
    · exact absurd (lt_of_le_of_lt h hy) hx
    · rw [if_neg hx, if_neg hy]
      exact Int.floor_mono h

theorem quantize16_mono {x y : ℚ} (h : x ≤ y) :
    quantize16 x ≤ quantize16 y := by
  simp only [quantize16]
  set sx := max (-1) (min 1 x) with hsx
  set sy := max (-1) (min 1 y) with hsy
  have hs : sx ≤ sy := max_le_max le_rfl (min_le_min le_rfl h)
  by_cases h1 : sx < 0
  · by_cases h2 : sy < 0
    · rw [if_pos h1, if_pos h2]
      exact truncTowardZero_mono (by linarith)
    · rw [if_pos h1, if_neg h2]
      have ha : truncTowardZero (sx * 0x8000) ≤ 0 := by
        have h0 : truncTowardZero (sx * 0x8000) ≤ truncTowardZero 0 :=
          truncTowardZero_mono (by linarith)
        simpa [truncTowardZero_eq] using h0
      have hb : (0 : ℤ) ≤ truncTowardZero (sy * 0x7FFF) := by
        have h0 : truncTowardZero 0 ≤ truncTowardZero (sy * 0x7FFF) :=
          truncTowardZero_mono (by nlinarith [le_of_not_lt h2])
        simpa [truncTowardZero_eq] using h0
      omega
  · by_cases h2 : sy < 0
    · exact absurd (lt_of_le_of_lt hs h2) h1
    · rw [if_neg h1, if_neg h2]
      exact truncTowardZero_mono (by nlinarith [le_of_not_lt h1])

theorem quantize16_saturate_neg {x : ℚ} (h : x ≤ -1) :
    quantize16 x = -32768 := by
  have h1 : min 1 x = x := min_eq_right (by linarith)
  have h2 : max (-1) x = -1 := max_eq_left h
  simp only [quantize16, h1, h2]
  norm_num [truncTowardZero_eq]

theorem quantize16_saturate_pos {x : ℚ} (h : 1 ≤ x) :
    quantize16 x = 32767 := by
  have h1 : min 1 x = 1 := min_eq_left h
  have h2 : max (-1) (1 : ℚ) = 1 := max_eq_right (by norm_num)
  simp only [quantize16, h1, h2]
  norm_num [truncTowardZero_eq]

theorem quantize16_range (x : ℚ) :
    -32768 ≤ quantize16 x ∧ quantize16 x ≤ 32767 := by
  constructor
  · have h1 : quantize16 (min x (-1)) ≤ quantize16 x :=
      quantize16_mono (min_le_left _ _)
    rwa [quantize16_saturate_neg (min_le_right _ _)] at h1
  · have h1 : quantize16 x ≤ quantize16 (max x 1) :=
      quantize16_mono (le_max_left _ _)
    rwa [quantize16_saturate_pos (le_max_right _ _)] at h1

/-! ### Locating samples inside the synthesized WAV byte stream -/

theorem i16le_length (z : ℤ) : (i16le z).length = 2 := rfl

theorem getD_drop (l : List ℕ) (n m : ℕ) :
    (l.drop n).getD m 0 = l.getD (n + m) 0 := by
  induction n generalizing l with
  | zero => simp
  | succ k ih =>
    cases l with
    | nil => simp
    | cons a t =>
      rw [List.drop_succ_cons, ih t, Nat.succ_add, List.getD_cons_succ]

theorem length_flatMap_const {α β : Type} (f : α → List β) (m : ℕ)
    (hm : ∀ a, (f a).length = m) (xs : List α) :
    (xs.flatMap f).length = xs.length * m := by
  induction xs with
  | nil => simp
  | cons a t ih =>
    rw [List.flatMap_cons, List.length_append, hm a, ih, List.length_cons,
      Nat.succ_mul]
    omega

theorem readU16le_drop (bs : List ℕ) (off : ℕ) :
    readU16le bs off = readU16le (bs.drop off) 0 := by
  simp only [readU16le, getD_drop, Nat.add_zero]

theorem wavDataWritten_length (buf : AudioBuffer) :
    (wavDataWritten buf).length
      = (buf.length - 44) * (buf.numberOfChannels * 2) := by
  rw [wavDataWritten, length_flatMap_const
      (fun pos => (List.range buf.numberOfChannels).flatMap fun i =>
        i16le (quantize16 (buf.data i pos)))
      (buf.numberOfChannels * 2)
      (fun pos => by
        rw [length_flatMap_const (fun i => i16le (quantize16 (buf.data i pos))) 2
          (fun i => i16le_length _), List.length_range]),
    List.length_drop, List.length_range]

theorem wavData_length (buf : AudioBuffer) :
    (wavData buf).length = buf.length * buf.numberOfChannels * 2 := by
  rw [wavData, List.length_append, List.length_replicate, wavDataWritten_length]
  have h : (buf.length - 44) * (buf.numberOfChannels * 2)
      ≤ buf.length * buf.numberOfChannels * 2 := by
    rw [← Nat.mul_assoc]
    exact Nat.mul_le_mul_right 2
      (Nat.mul_le_mul_right buf.numberOfChannels (Nat.sub_le _ _))
  omega

theorem createWavBuffer_length (buf : AudioBuffer) :
    (createWavBuffer buf).length = 44 + buf.length * buf.numberOfChannels * 2 := by
  rw [createWavBuffer, List.length_append, wavData_length,
    show (wavHeader buf.numberOfChannels buf.length buf.sampleRate).length = 44 from rfl]

/-! ### Claim theorems: the WAV writer and the quantizer -/

/-- C1: the claimed per-frame interleaving is false of the program. The
header helpers leave `pos` at 44 and the interleave loop reuses it as
the frame index, so nothing is written when frameCount ≤ 44 and the data
section stays zero-filled. At the concrete 2-frame stereo buffer the
loop writes no sample, the whole data section is the 8 zero bytes of the
`ArrayBuffer`, and the 16-bit value at offset `44 + 2*(1*channels + 0)`
is 0, not the −24576 quantization of the frame-1 channel-0 sample. -/
theorem wav_pos_bug :
    wavDataWritten testBuf = [] ∧
    wavData testBuf = List.replicate 8 0 ∧
    readI16le (createWavBuffer testBuf)
        (44 + 2 * (1 * testBuf.numberOfChannels + 0)) = 0 ∧
    quantize16 (testBuf.data 0 1) = -24576 ∧
    readI16le (createWavBuffer testBuf)
        (44 + 2 * (1 * testBuf.numberOfChannels + 0))
      ≠ quantize16 (testBuf.data 0 1) := by
  have h3 : readI16le (createWavBuffer testBuf)
      (44 + 2 * (1 * testBuf.numberOfChannels + 0)) = 0 := by decide
  have h4 : quantize16 (testBuf.data 0 1) = -24576 := by
    have hdata : testBuf.data 0 1 = -3/4 := rfl
    rw [hdata]
    simp only [quantize16]
    rw [min_eq_right (by norm_num : (-3/4 : ℚ) ≤ 1),
      max_eq_right (by norm_num : (-1 : ℚ) ≤ -3/4),
      if_pos (by norm_num : (-3/4 : ℚ) < 0)]
    norm_num [truncTowardZero_eq]
  exact ⟨rfl, rfl, h3, h4, by rw [h3, h4]; decide⟩

theorem readU32le_u32le (n : ℕ) (rest : List ℕ) :
    readU32le (u32le n ++ rest) 0
      = n % 256 + 256 * (n / 256 % 256) + 65536 * (n / 65536 % 256)
        + 16777216 * (n / 16777216 % 256) := rfl

theorem readU16le_u16le (n : ℕ) (rest : List ℕ) :
    readU16le (u16le n ++ rest) 0 = n % 256 + 256 * (n / 256 % 256) := rfl

theorem readU32le_drop (bs : List ℕ) (off : ℕ) :
    readU32le bs off = readU32le (bs.drop off) 0 := by
  simp only [readU32le, getD_drop, Nat.add_zero]

theorem drop_u32le (n : ℕ) (rest : List ℕ) (k : ℕ) :
    (u32le n ++ rest).drop (4 + k) = rest.drop k := by
  have hlen : (u32le n).length = 4 := rfl
  rw [List.drop_append_eq_append_drop,
    List.drop_eq_nil_of_le (by rw [hlen]; omega), List.nil_append, hlen,
    show 4 + k - 4 = k from by omega]

theorem drop_u16le (n : ℕ) (rest : List ℕ) (k : ℕ) :
    (u16le n ++ rest).drop (2 + k) = rest.drop k := by
  have hlen : (u16le n).length = 2 := rfl
  rw [List.drop_append_eq_append_drop,
    List.drop_eq_nil_of_le (by rw [hlen]; omega), List.nil_append, hlen,
    show 2 + k - 2 = k from by omega]

theorem wavHeader_assoc (c l r : ℕ) (t : List ℕ) :
    wavHeader c l r ++ t
      = u32le 0x46464952 ++ (u32le (36 + l * c * 2) ++ (u32le 0x45564157 ++
        (u32le 0x20746d66 ++ (u32le 16 ++ (u16le 1 ++ (u16le c ++ (u32le r ++
        (u32le (r * 2 * c) ++ (u16le (c * 2) ++ (u16le 16 ++
        (u32le 0x61746164 ++ (u32le (l * c * 2) ++ t)))))))))))) := by
  simp only [wavHeader, List.append_assoc]

theorem wavHeader_fields (c l r : ℕ) (t : List ℕ)
    (hch : c < 65536) (hsr : r < 4294967296) (hba : c * 2 < 65536)
    (hbr : r * 2 * c < 4294967296) (hdl : 36 + l * c * 2 < 4294967296) :
    readU32le (wavHeader c l r ++ t) 0 = 0x46464952 ∧
    readU32le (wavHeader c l r ++ t) 4 = 36 + l * c * 2 ∧
    readU32le (wavHeader c l r ++ t) 8 = 0x45564157 ∧
    readU32le (wavHeader c l r ++ t) 12 = 0x20746d66 ∧
    readU32le (wavHeader c l r ++ t) 16 = 16 ∧
    readU16le (wavHeader c l r ++ t) 20 = 1 ∧
    readU16le (wavHeader c l r ++ t) 22 = c ∧
    readU32le (wavHeader c l r ++ t) 24 = r ∧
    readU32le (wavHeader c l r ++ t) 28 = r * 2 * c ∧
    readU16le (wavHeader c l r ++ t) 32 = c * 2 ∧
    readU16le (wavHeader c l r ++ t) 34 = 16 ∧
    readU32le (wavHeader c l r ++ t) 36 = 0x61746164 ∧
    readU32le (wavHeader c l r ++ t) 40 = l * c * 2 := by
  refine ⟨?_, ?_, ?_, ?_, ?_, ?_, ?_, ?_, ?_, ?_, ?_, ?_, ?_⟩
  · rw [wavHeader_assoc, readU32le_u32le]
  · rw [readU32le_drop, wavHeader_assoc,
      show (4 : ℕ) = 4 + 0 from rfl, drop_u32le, List.drop_zero,
      readU32le_u32le]
    omega
  · rw [readU32le_drop, wavHeader_assoc,
      show (8 : ℕ) = 4 + 4 from rfl, drop_u32le,
      show (4 : ℕ) = 4 + 0 from rfl, drop_u32le, List.drop_zero,
      readU32le_u32le]
  · rw [readU32le_drop, wavHeader_assoc,
      show (12 : ℕ) = 4 + 8 from rfl, drop_u32le,
      show (8 : ℕ) = 4 + 4 from rfl, drop_u32le,
      show (4 : ℕ) = 4 + 0 from rfl, drop_u32le, List.drop_zero,
      readU32le_u32le]
  · rw [readU32le_drop, wavHeader_assoc,
      show (16 : ℕ) = 4 + 12 from rfl, drop_u32le,
      show (12 : ℕ) = 4 + 8 from rfl, drop_u32le,
      show (8 : ℕ) = 4 + 4 from rfl, drop_u32le,
      show (4 : ℕ) = 4 + 0 from rfl, drop_u32le, List.drop_zero,
      readU32le_u32le]
  · rw [readU16le_drop, wavHeader_assoc,
      show (20 : ℕ) = 4 + 16 from rfl, drop_u32le,
      show (16 : ℕ) = 4 + 12 from rfl, drop_u32le,
      show (12 : ℕ) = 4 + 8 from rfl, drop_u32le,
      show (8 : ℕ) = 4 + 4 from rfl, drop_u32le,
      show (4 : ℕ) = 4 + 0 from rfl, drop_u32le, List.drop_zero,
      readU16le_u16le]
  · rw [readU16le_drop, wavHeader_assoc,
      show (22 : ℕ) = 4 + 18 from rfl, drop_u32le,
      show (18 : ℕ) = 4 + 14 from rfl, drop_u32le,
      show (14 : ℕ) = 4 + 10 from rfl, drop_u32le,
      show (10 : ℕ) = 4 + 6 from rfl, drop_u32le,
      show (6 : ℕ) = 4 + 2 from rfl, drop_u32le,
      show (2 : ℕ) = 2 + 0 from rfl, drop_u16le, List.drop_zero,
      readU16le_u16le]
    omega
  · rw [readU32le_drop, wavHeader_assoc,
      show (24 : ℕ) = 4 + 20 from rfl, drop_u32le,
      show (20 : ℕ) = 4 + 16 from rfl, drop_u32le,
      show (16 : ℕ) = 4 + 12 from rfl, drop_u32le,
      show (12 : ℕ) = 4 + 8 from rfl, drop_u32le,
      show (8 : ℕ) = 4 + 4 from rfl, drop_u32le,
      show (4 : ℕ) = 2 + 2 from rfl, drop_u16le,
      show (2 : ℕ) = 2 + 0 from rfl, drop_u16le, List.drop_zero,
      readU32le_u32le]
    omega
  · rw [readU32le_drop, wavHeader_assoc,
      show (28 : ℕ) = 4 + 24 from rfl, drop_u32le,
      show (24 : ℕ) = 4 + 20 from rfl, drop_u32le,
      show (20 : ℕ) = 4 + 16 from rfl, drop_u32le,
      show (16 : ℕ) = 4 + 12 from rfl, drop_u32le,
      show (12 : ℕ) = 4 + 8 from rfl, drop_u32le,
      show (8 : ℕ) = 2 + 6 from rfl, drop_u16le,
      show (6 : ℕ) = 2 + 4 from rfl, drop_u16le,
      show (4 : ℕ) = 4 + 0 from rfl, drop_u32le, List.drop_zero,
      readU32le_u32le]
    omega
  · rw [readU16le_drop, wavHeader_assoc,
      show (32 : ℕ) = 4 + 28 from rfl, drop_u32le,
      show (28 : ℕ) = 4 + 24 from rfl, drop_u32le,
      show (24 : ℕ) = 4 + 20 from rfl, drop_u32le,
      show (20 : ℕ) = 4 + 16 from rfl, drop_u32le,
      show (16 : ℕ) = 4 + 12 from rfl, drop_u32le,
      show (12 : ℕ) = 2 + 10 from rfl, drop_u16le,
      show (10 : ℕ) = 2 + 8 from rfl, drop_u16le,
      show (8 : ℕ) = 4 + 4 from rfl, drop_u32le,
      show (4 : ℕ) = 4 + 0 from rfl, drop_u32le, List.drop_zero,
      readU16le_u16le]
    omega
  · rw [readU16le_drop, wavHeader_assoc,
      show (34 : ℕ) = 4 + 30 from rfl, drop_u32le,
      show (30 : ℕ) = 4 + 26 from rfl, drop_u32le,
      show (26 : ℕ) = 4 + 22 from rfl, drop_u32le,
      show (22 : ℕ) = 4 + 18 from rfl, drop_u32le,
      show (18 : ℕ) = 4 + 14 from rfl, drop_u32le,
      show (14 : ℕ) = 2 + 12 from rfl, drop_u16le,
      show (12 : ℕ) = 2 + 10 from rfl, drop_u16le,
      show (10 : ℕ) = 4 + 6 from rfl, drop_u32le,
      show (6 : ℕ) = 4 + 2 from rfl, drop_u32le,
      show (2 : ℕ) = 2 + 0 from rfl, drop_u16le, List.drop_zero,
      readU16le_u16le]
  · rw [readU32le_drop, wavHeader_assoc,
      show (36 : ℕ) = 4 + 32 from rfl, drop_u32le,
      show (32 : ℕ) = 4 + 28 from rfl, drop_u32le,
      show (28 : ℕ) = 4 + 24 from rfl, drop_u32le,
      show (24 : ℕ) = 4 + 20 from rfl, drop_u32le,
      show (20 : ℕ) = 4 + 16 from rfl, drop_u32le,
      show (16 : ℕ) = 2 + 14 from rfl, drop_u16le,
      show (14 : ℕ) = 2 + 12 from rfl, drop_u16le,
      show (12 : ℕ) = 4 + 8 from rfl, drop_u32le,
      show (8 : ℕ) = 4 + 4 from rfl, drop_u32le,
      show (4 : ℕ) = 2 + 2 from rfl, drop_u16le,
      show (2 : ℕ) = 2 + 0 from rfl, drop_u16le, List.drop_zero,
      readU32le_u32le]
  · rw [readU32le_drop, wavHeader_assoc,
      show (40 : ℕ) = 4 + 36 from rfl, drop_u32le,
      show (36 : ℕ) = 4 + 32 from rfl, drop_u32le,
      show (32 : ℕ) = 4 + 28 from rfl, drop_u32le,
      show (28 : ℕ) = 4 + 24 from rfl, drop_u32le,
      show (24 : ℕ) = 4 + 20 from rfl, drop_u32le,
      show (20 : ℕ) = 2 + 18 from rfl, drop_u16le,
      show (18 : ℕ) = 2 + 16 from rfl, drop_u16le,
      show (16 : ℕ) = 4 + 12 from rfl, drop_u32le,
      show (12 : ℕ) = 4 + 8 from rfl, drop_u32le,
      show (8 : ℕ) = 2 + 6 from rfl, drop_u16le,
      show (6 : ℕ) = 2 + 4 from rfl, drop_u16le,
      show (4 : ℕ) = 4 + 0 from rfl, drop_u32le, List.drop_zero,
      readU32le_u32le]
    omega

/-- C2: the synthesized WAV has total byte length
`44 + frameCount*channels*2` and a little-endian 44-byte PCM header:
"RIFF"/"WAVE"/"fmt "/"data" chunk IDs, RIFF size `36 + dataLen`, fmt
chunk size 16, format tag 1, 16-bit depth, block align `channels*2`,
byte rate `sampleRate*2*channels`, data length `frameCount*channels*2`,
and the channel-count and sample-rate fields decode back to the
values of the buffer. -/
theorem createWavBuffer_container_spec (buf : AudioBuffer)
    (hch : buf.numberOfChannels < 65536)
    (hsr : buf.sampleRate < 4294967296)
    (hba : buf.numberOfChannels * 2 < 65536)
    (hbr : buf.sampleRate * 2 * buf.numberOfChannels < 4294967296)
    (hdl : 36 + buf.length * buf.numberOfChannels * 2 < 4294967296) :
    (createWavBuffer buf).length
        = 44 + buf.length * buf.numberOfChannels * 2 ∧
    readU32le (createWavBuffer buf) 0 = 0x46464952 ∧
    readU32le (createWavBuffer buf) 4
        = 36 + buf.length * buf.numberOfChannels * 2 ∧
    readU32le (createWavBuffer buf) 8 = 0x45564157 ∧
    readU32le (createWavBuffer buf) 12 = 0x20746d66 ∧
    readU32le (createWavBuffer buf) 16 = 16 ∧
    readU16le (createWavBuffer buf) 20 = 1 ∧
    readU16le (createWavBuffer buf) 22 = buf.numberOfChannels ∧
    readU32le (createWavBuffer buf) 24 = buf.sampleRate ∧
    readU32le (createWavBuffer buf) 28
        = buf.sampleRate * 2 * buf.numberOfChannels ∧
    readU16le (createWavBuffer buf) 32 = buf.numberOfChannels * 2 ∧
    readU16le (createWavBuffer buf) 34 = 16 ∧
    readU32le (createWavBuffer buf) 36 = 0x61746164 ∧
    readU32le (createWavBuffer buf) 40
        = buf.length * buf.numberOfChannels * 2 := by
  obtain ⟨f1, f2, f3, f4, f5, f6, f7, f8, f9, f10, f11, f12, f13⟩ :=
    wavHeader_fields buf.numberOfChannels buf.length buf.sampleRate
      (wavData buf) hch hsr hba hbr hdl
  exact ⟨createWavBuffer_length buf, f1, f2, f3, f4, f5, f6, f7, f8, f9, f10,
    f11, f12, f13⟩

/-- C2 witness: the header of the WAV of the concrete stereo buffer decodes
back to its channel count and sample rate, and the length comes out
right. -/
theorem createWavBuffer_container_spec_witness :
    readU16le (createWavBuffer testBuf) 22 = testBuf.numberOfChannels ∧
    readU32le (createWavBuffer testBuf) 24 = testBuf.sampleRate ∧
    (createWavBuffer testBuf).length
      = 44 + testBuf.length * testBuf.numberOfChannels * 2 := by
  obtain ⟨h1, _, _, _, _, _, _, h22, h24, _⟩ :=
    createWavBuffer_container_spec testBuf (by norm_num [testBuf])
      (by norm_num [testBuf]) (by norm_num [testBuf]) (by norm_num [testBuf])
      (by norm_num [testBuf])
  exact ⟨h22, h24, h1⟩

/-- C3: the 16-bit quantization shared by the WAV writer and the FLAC
path is monotone non-decreasing, lands in `[-32768, 32767]`, and
saturates exactly: inputs at or below −1 map to −32768, inputs at or
above 1 map to 32767. -/
theorem quantize16_spec :
    (∀ x y : ℚ, x ≤ y → quantize16 x ≤ quantize16 y) ∧
    (∀ x : ℚ, -32768 ≤ quantize16 x ∧ quantize16 x ≤ 32767) ∧
    (∀ x : ℚ, x ≤ -1 → quantize16 x = -32768) ∧
    (∀ x : ℚ, 1 ≤ x → quantize16 x = 32767) :=
  ⟨fun _ _ h => quantize16_mono h, quantize16_range,
   fun _ h => quantize16_saturate_neg h, fun _ h => quantize16_saturate_pos h⟩

/-- C3 witness: monotonicity and both saturation arms at concrete
rational inputs. -/
theorem quantize16_spec_witness :
    quantize16 (-1/4) ≤ quantize16 (1/2) ∧
    quantize16 (-3/2) = -32768 ∧
    quantize16 (5/4) = 32767 :=
  ⟨quantize16_spec.1 (-1/4) (1/2) (by norm_num),
   quantize16_spec.2.2.1 (-3/2) (by norm_num),
   quantize16_spec.2.2.2 (5/4) (by norm_num)⟩

/-! ### Claim theorems: conversion fallbacks, negotiation, transitions -/

/-- C4: whenever the FLAC library failed to load, the global encoder
object or its create-encoder entry point is absent, encoder creation
returns a zero handle, or any step of the FLAC path throws, the audio
conversion returns the synthesized WAV blob and sets the fallback flag;
and in every circumstance it returns a WAV or FLAC blob, never a
missing or failed artifact. -/
theorem convertToFlac_fallback (env : FlacEnv) (decoded : AudioBuffer) :
    ((env.flacPresent = false ∨ env.flacLoaded = false ∨
        env.hasCreateEncoder = false ∨ env.encoderHandle = 0 ∨
        env.decodeThrows = true ∨ env.encodeThrows = true) →
      convertToFlac env decoded = (createWavFromAudio decoded, true)) ∧
    ((convertToFlac env decoded).1.type = "audio/wav" ∨
      (convertToFlac env decoded).1.type = "audio/flac") := by
  constructor
  · intro h
    unfold convertToFlac
    split_ifs with h1 h2 h3 h4 h5
    · rfl
    · rfl
    · rfl
    · rfl
    · rfl
    · rcases h with h | h | h | h | h | h
      · exact absurd (Or.inl h) h1
      · exact absurd (Or.inr h) h1
      · exact absurd h h3
      · exact absurd h h4
      · exact absurd h h2
      · exact absurd h h5
  · unfold convertToFlac
    split_ifs <;> first
      | exact Or.inl rfl
      | exact Or.inr rfl

/-- C4 witness: with the bootstrap failed, conversion of the concrete
buffer is the WAV blob with the fallback flag set. -/
theorem convertToFlac_fallback_witness :
    convertToFlac flacFailEnv testBuf = (createWavFromAudio testBuf, true) :=
  (convertToFlac_fallback flacFailEnv testBuf).1 (Or.inl rfl)

/-- C5: with no retained capture stream, `startRecording` only sets the
stream-not-available message: `isRecording` is unchanged (so stays
false) and neither recorder ref is constructed or started. -/
theorem startRecording_no_stream (env : StartEnv) (s : CState)
    (h : s.hasStream = false) :
    startRecording env s = { s with errorMessage := streamErrorMsg } ∧
    (startRecording env s).errorMessage = streamErrorMsg ∧
    (startRecording env s).isRecording = s.isRecording ∧
    (startRecording env s).mediaRecorder = s.mediaRecorder ∧
    (startRecording env s).audioRecorder = s.audioRecorder := by
  have he : startRecording env s = { s with errorMessage := streamErrorMsg } := by
    simp [startRecording, h]
  refine ⟨he, ?_, ?_, ?_, ?_⟩ <;> rw [he]

/-- C5 witness: the concrete streamless state. -/
theorem startRecording_no_stream_witness :
    startRecording testStartEnv testState
      = { testState with errorMessage := streamErrorMsg } :=
  (startRecording_no_stream testStartEnv testState rfl).1

theorem stopRecording_isRecording_false (env : StopEnv) (s : CState) :
    (stopRecording env s).1.isRecording = false := by
  unfold stopRecording
  split_ifs <;> rfl

theorem stopRecording_noop_of_not_recording (env : StopEnv) (s : CState)
    (h1 : s.mediaRecorder ≠ some RecState.recording)
    (h2 : s.audioRecorder ≠ some RecState.recording) :
    stopRecording env s = ({ s with isRecording := false }, 0) := by
  simp [stopRecording, h1, h2]

theorem stopRecording_recorders_stopped (env : StopEnv) (s : CState)
    (hv : env.videoStopThrows = false) (ha : env.audioStopThrows = false) :
    (stopRecording env s).1.mediaRecorder ≠ some RecState.recording ∧
    (stopRecording env s).1.audioRecorder ≠ some RecState.recording := by
  unfold stopRecording
  split_ifs <;> simp_all

/-- C6: `stopRecording` stops a recorder only when it reports
`"recording"`, so after a non-throwing call a second call performs zero
`stop()` operations and leaves the error message untouched; when both
recorders are already stopped the call is a pure `isRecording := false`
no-op with zero stops; on a throw during a stop the message is reported;
and `isRecording` ends up false in every case. -/
theorem stopRecording_idempotent (env env2 : StopEnv) (s : CState) :
    (stopRecording env s).1.isRecording = false ∧
    (s.mediaRecorder ≠ some RecState.recording →
      s.audioRecorder ≠ some RecState.recording →
      stopRecording env s = ({ s with isRecording := false }, 0)) ∧
    (env.videoStopThrows = false → env.audioStopThrows = false →
      (stopRecording env2 (stopRecording env s).1).2 = 0 ∧
      (stopRecording env2 (stopRecording env s).1).1.errorMessage
        = (stopRecording env s).1.errorMessage) ∧
    ((s.mediaRecorder = some RecState.recording ∧ env.videoStopThrows = true) ∨
        (s.audioRecorder = some RecState.recording ∧
          env.audioStopThrows = true ∧
          ¬(s.mediaRecorder = some RecState.recording ∧
            env.videoStopThrows = true)) →
      (stopRecording env s).1.errorMessage = stopErrorMsg env) := by
  refine ⟨stopRecording_isRecording_false env s, ?_, ?_, ?_⟩
  · exact fun h1 h2 => stopRecording_noop_of_not_recording env s h1 h2
  · intro hv ha
    obtain ⟨g1, g2⟩ := stopRecording_recorders_stopped env s hv ha
    rw [stopRecording_noop_of_not_recording env2 _ g1 g2]
    exact ⟨rfl, rfl⟩
  · intro h
    unfold stopRecording
    rcases h with ⟨h1, h2⟩ | ⟨h1, h2, h3⟩ <;> split_ifs <;> simp_all

/-- C6 witness: on the concrete already-stopped state a call performs
zero stop operations, changes no message, and only clears
`isRecording`. -/
theorem stopRecording_idempotent_witness :
    stopRecording testStopEnv stoppedState
      = ({ stoppedState with isRecording := false }, 0) :=
  (stopRecording_idempotent testStopEnv testStopEnv stoppedState).2.1
    (by decide) (by decide)

/-- C7: when the negotiated video container is already `video/mp4`, the
stop handler exposes the assembled original blob itself — same bytes,
same type, no conversion applied — and reports success. -/
theorem mp4_passthrough (convertThrows : Bool) (s : CState)
    (h1 : s.videoMimeType = "video/mp4") (h2 : s.videoChunks ≠ []) :
    (videoOnStop convertThrows s).videoURL
        = some { bytes := s.videoChunks.flatten, type := s.videoMimeType } ∧
    (videoOnStop convertThrows s).videoRecorded = true := by
  constructor <;> simp [videoOnStop, h1, List.length_pos.mpr h2]

/-- C7 witness: the concrete MP4-negotiated state with one chunk. -/
theorem mp4_passthrough_witness :
    (videoOnStop false mp4State).videoURL
      = some { bytes := mp4State.videoChunks.flatten,
               type := mp4State.videoMimeType } :=
  (mp4_passthrough false mp4State rfl (by decide)).1

/-- C8: if the MP4 conversion step throws, the handler catches it,
exposes the untouched original blob under its original MIME type, still
sets `videoRecorded`, and surfaces the warning message. -/
theorem mp4_conversion_fallback (s : CState)
    (h1 : s.videoMimeType ≠ "video/mp4") (h2 : s.videoChunks ≠ []) :
    (videoOnStop true s).videoURL
        = some { bytes := s.videoChunks.flatten, type := s.videoMimeType } ∧
    (videoOnStop true s).videoRecorded = true ∧
    (videoOnStop true s).errorMessage = videoConvertErrorMsg := by
  refine ⟨?_, ?_, ?_⟩ <;> simp [videoOnStop, h1, List.length_pos.mpr h2]

/-- C8 witness: the concrete WebM-negotiated state with one chunk and a
throwing conversion. -/
theorem mp4_conversion_fallback_witness :
    (videoOnStop true webmState).videoURL
      = some { bytes := webmState.videoChunks.flatten,
               type := webmState.videoMimeType } ∧
    (videoOnStop true webmState).errorMessage = videoConvertErrorMsg :=
  ⟨(mp4_conversion_fallback webmState (by decide) (by decide)).1,
   (mp4_conversion_fallback webmState (by decide) (by decide)).2.2⟩

/-- C9: negotiation picks the first candidate of
`[video/webm, video/mp4]` (resp. `[audio/webm, audio/ogg]`) that
the runtime reports as supported, and stays at the first candidate when
none is supported. -/
theorem mime_negotiation (sup : String → Bool) :
    negotiateMime "video/webm" videoTypes sup
      = (if sup "video/webm" then "video/webm"
         else if sup "video/mp4" then "video/mp4" else "video/webm") ∧
    negotiateMime "audio/webm" audioTypes sup
      = (if sup "audio/webm" then "audio/webm"
         else if sup "audio/ogg" then "audio/ogg" else "audio/webm") := by
  constructor <;> simp [negotiateMime, videoTypes, audioTypes]

/-- C10: on an empty chunk buffer, the corresponding stop handler is a
complete no-op: no blob is assembled, no URL replaced, no flag or
message changed. -/
theorem onstop_empty_buffer_noop (convertThrows : Bool) (fenv : FlacEnv)
    (decoded : AudioBuffer) (wavThrows : Bool) (s : CState) :
    (s.videoChunks = [] → videoOnStop convertThrows s = s) ∧
    (s.audioChunks = [] → audioOnStop fenv decoded wavThrows s = s) := by
  constructor <;> intro h <;> simp [videoOnStop, audioOnStop, h]

/-- C10 witness: both handlers on the concrete empty-buffer state. -/
theorem onstop_empty_buffer_noop_witness :
    videoOnStop false testState = testState ∧
    audioOnStop flacFailEnv testBuf false testState = testState :=
  ⟨(onstop_empty_buffer_noop false flacFailEnv testBuf false testState).1 rfl,
   (onstop_empty_buffer_noop false flacFailEnv testBuf false testState).2 rfl⟩
